import Mathlib

/-!
# Browser-VNC-Docker: account registry and lifecycle supervisor, shallowly embedded

This file embeds the core of `app/common/accounts.py` and the account routes of
`app/admin/app.py` as pure Lean functions, and proves the specified properties
about them.

Conventions of the embedding:
* Python dicts holding account records become the `Account` structure; a
  "cleaned" patch dict (output of `validate_account_payload(..., partial=True)`)
  becomes `Patch`, with `Option` fields for keys that may be absent.
* `raise ValidationError(..., code=c)` becomes `Except.error c` (the numeric
  code is the payload the claims are about).
* Filesystem and process-table effects are made explicit: the OS process table
  is a list of command lines, spawning appends to it, and operations that call
  `save_accounts` / `delete_profile_dir` return the lists they were called with.
-/

namespace BrowserVnc

/-- A proxy endpoint record `{host, port, username, password}` as produced by
`_validate_proxy_obj`. -/
structure ProxyEndpoint where
  host : String
  port : Nat
  username : String
  password : String
deriving DecidableEq

/-- The account's proxy map: any subset of the keys `http`, `https`, `socks5`
may be present (`validate_proxy`). -/
structure ProxyMap where
  http : Option ProxyEndpoint
  https : Option ProxyEndpoint
  socks5 : Option ProxyEndpoint
deriving DecidableEq

/-- The empty proxy map (Python `{}`). -/
def ProxyMap.empty : ProxyMap := ⟨none, none, none⟩

/-- Python truthiness of the proxy dict: `if proxy:` is true iff some key is
present. -/
def ProxyMap.nonempty (p : ProxyMap) : Bool :=
  p.http.isSome || p.https.isSome || p.socks5.isSome

/-- An account record as stored in `accounts.json`. -/
structure Account where
  id : String
  name : String
  profile_dir : String
  proxy : ProxyMap
  autostart : Bool
  default_url : String
  notes : String
  version : Nat
deriving DecidableEq

/-- A cleaned partial-update payload: the dict returned by
`validate_account_payload(data, partial=True)`. A field is `none` when the
corresponding key is absent from the cleaned dict. -/
structure Patch where
  name : Option String
  proxy : Option ProxyMap
  autostart : Option Bool
  default_url : Option String
  notes : Option String
  version : Option Nat
deriving DecidableEq

/-- The all-absent patch (`{}` after cleaning). -/
def Patch.empty : Patch := ⟨none, none, none, none, none, none⟩

/-- `DATA_DIR` with its default value (`os.environ.get("DATA_DIR", "/data")`). -/
def DATA_DIR : String := "/data"

/-- `os.path.join(a, b)` for an absolute `a` without trailing separator and a
relative `b`, the only shape used by the code. -/
def os_path_join (a b : String) : String := a ++ "/" ++ b

/-- `PROFILES_DIR = os.path.join(DATA_DIR, "profiles")`. -/
def PROFILES_DIR : String := os_path_join DATA_DIR "profiles"

/-- `generate_account_id`: `acc-<millis>-<random-hex>`; the timestamp and the
random suffix are parameters of the embedding. -/
def generate_account_id (ts : Nat) (suffix : String) : String :=
  "acc-" ++ toString ts ++ "-" ++ suffix

/-- A cleaned full-creation payload: `validate_account_payload(data,
partial=False)` always materializes `name`, `autostart`, `default_url` and
`notes`; `proxy` is present only when the key was in the request. -/
structure CreateCleaned where
  name : String
  proxy : Option ProxyMap
  autostart : Bool
  default_url : String
  notes : String
deriving DecidableEq

/-- `build_account(cleaned)`: assembles a fresh record with a generated id,
`profile_dir = os.path.join(PROFILES_DIR, account_id)` and `version = 1`. -/
def build_account (cleaned : CreateCleaned) (ts : Nat) (suffix : String) : Account :=
  let account_id := generate_account_id ts suffix
  { id := account_id
    name := cleaned.name
    profile_dir := os_path_join PROFILES_DIR account_id
    proxy := cleaned.proxy.getD ProxyMap.empty
    autostart := cleaned.autostart
    default_url := cleaned.default_url
    notes := cleaned.notes
    version := 1 }

/-- The field-merge half of `update_account_obj`: for each of the five keys
`name`, `proxy`, `autostart`, `default_url`, `notes`, copy the patch's value
when the key is present, then set `version = version + 1`. -/
def mergeFields (account : Account) (cleaned : Patch) : Account :=
  { account with
    name := match cleaned.name with | some v => v | none => account.name
    proxy := match cleaned.proxy with | some v => v | none => account.proxy
    autostart := match cleaned.autostart with | some v => v | none => account.autostart
    default_url := match cleaned.default_url with | some v => v | none => account.default_url
    notes := match cleaned.notes with | some v => v | none => account.notes
    version := account.version + 1 }

/-- `update_account_obj(account, cleaned, check_version)`: when
`check_version` holds and the cleaned patch carries a `version` key, a
mismatch with the stored version raises `ValidationError` with code 1007
before any field is touched; otherwise the merge and version bump happen. -/
def update_account_obj (account : Account) (cleaned : Patch)
    (check_version : Bool) : Except Nat Account :=
  match check_version, cleaned.version with
  | true, some v =>
      if account.version = v then .ok (mergeFields account cleaned)
      else .error 1007
  | true, none => .ok (mergeFields account cleaned)
  | false, _ => .ok (mergeFields account cleaned)

/-- A sequence of update calls, each with its own patch and `check_version`
flag; the first raised error aborts the sequence, as an uncaught Python
exception would. -/
def applyUpdates (account : Account) : List (Patch × Bool) → Except Nat Account
  | [] => .ok account
  | (p, c) :: rest =>
      match update_account_obj account p c with
      | .error e => .error e
      | .ok a1 => applyUpdates a1 rest

/-- The `check_version` argument the PUT route passes:
`"version" in cleaned` (`app.py`, `update_account`). -/
def update_endpoint_check_flag (cleaned : Patch) : Bool :=
  cleaned.version.isSome

/-- The PUT route's call into the store:
`update_account_obj(target, cleaned, check_version="version" in cleaned)`. -/
def update_endpoint (account : Account) (cleaned : Patch) : Except Nat Account :=
  update_account_obj account cleaned (update_endpoint_check_flag cleaned)

/-- `find_account(accounts, account_id)`: linear scan by id equality. -/
def find_account (accounts : List Account) (account_id : String) : Option Account :=
  match accounts with
  | [] => none
  | a :: rest => if a.id = account_id then some a else find_account rest account_id

/-! ## Process probe and lifecycle supervisor -/

/-- Does `needle` match at the head of `hay`? -/
def leadMatch : List Char → List Char → Bool
  | [], _ => true
  | _ :: _, [] => false
  | a :: as, b :: bs => a == b && leadMatch as bs

/-- Does `needle` occur as a contiguous substring of `hay`? This is the match
semantics of `pgrep -f <pattern>` for a pattern without regex metacharacters
(profile paths are `/data/profiles/acc-<millis>-<hex>`). -/
def occursIn (needle : List Char) : List Char → Bool
  | [] => needle.isEmpty
  | h :: t => leadMatch needle (h :: t) || occursIn needle t

/-- Substring occurrence on strings. -/
def occursInStr (needle hay : String) : Bool :=
  occursIn needle.data hay.data

/-- The OS process table, projected to the full command line of each process
(what `pgrep -f` / `pkill -f` scan). -/
abbrev ProcessTable := List String

/-- `is_running(profile_dir)`: true iff some process's command line contains
the profile directory as a substring. -/
def is_running (profile_dir : String) (pt : ProcessTable) : Bool :=
  List.any pt (fun cmd => occursInStr profile_dir cmd)

/-- The command line of the browser process spawned by `start_account`:
`firefox-esr --no-remote --profile <profile_dir> [<default_url>]`, joined the
way the process table renders argv. -/
def launch_cmdline (a : Account) : String :=
  "firefox-esr --no-remote --profile " ++ a.profile_dir ++
    (if a.default_url = "" then "" else " " ++ a.default_url)

/-- `start_account(account)` acting on the process table: probe the profile
path; when running return `already_running` without spawning, otherwise spawn
(the new process appears in the table, the claim's stated assumption) and
return `started`. The profile provisioning side effect is modelled separately
by `write_user_js_lines`. -/
def start_account (a : Account) (pt : ProcessTable) :
    (Bool × String) × ProcessTable :=
  if is_running a.profile_dir pt then ((false, "already_running"), pt)
  else ((true, "started"), pt ++ [launch_cmdline a])

/-! ## Profile provisioner (`write_user_js`) -/

/-- The value of a `user_pref` line: `_user_pref` renders strings quoted,
ints bare and bools as `true`/`false`; the embedding keeps them typed. -/
inductive PrefVal where
  | s (v : String)
  | n (v : Nat)
  | b (v : Bool)
deriving DecidableEq

/-- The sequence of `user_pref(key, value)` statements `write_user_js` writes
for a given proxy map, in file order (the leading comment line is omitted). -/
def write_user_js_lines (proxy : ProxyMap) : List (String × PrefVal) :=
  if proxy.nonempty then
    [("network.proxy.type", .n 1), ("network.proxy.no_proxies_on", .s "")]
    ++ (match proxy.http with
        | some http =>
            [("network.proxy.http", .s http.host),
             ("network.proxy.http_port", .n http.port)]
        | none => [])
    ++ (match proxy.https, proxy.http with
        | some https, _ =>
            [("network.proxy.ssl", .s https.host),
             ("network.proxy.ssl_port", .n https.port)]
        | none, some http =>
            [("network.proxy.ssl", .s http.host),
             ("network.proxy.ssl_port", .n http.port)]
        | none, none => [])
    ++ (match proxy.socks5 with
        | some socks =>
            [("network.proxy.socks", .s socks.host),
             ("network.proxy.socks_port", .n socks.port),
             ("network.proxy.socks_version", .n 5),
             ("network.proxy.socks_remote_dns", .b true)]
        | none => [])
  else
    [("network.proxy.type", .n 0), ("network.proxy.no_proxies_on", .s "")]

/-- The host/port pair the spec emits for one protocol, when present. -/
def specHostPort (khost kport : String) : Option ProxyEndpoint →
    List (String × PrefVal)
  | some e => [(khost, .s e.host), (kport, .n e.port)]
  | none => []

/-- The endpoint the spec uses for the secure (ssl) entries: `https`, falling
back to `http` when `https` is absent but `http` is present. -/
def specSslSource (p : ProxyMap) : Option ProxyEndpoint :=
  match p.https with
  | some e => some e
  | none => p.http

/-- Transcription of spec section 4.2's wording (the second definition of a
refinement pair; `write_user_js_lines` is the one from the source): if the
proxy map is empty, emit proxy type 0 and an empty bypass list; otherwise emit
type 1, an empty bypass list, each present protocol's host/port, the secure
entries from `https`-falling-back-to-`http`, and for `socks5` additionally
socks version 5 and remote-DNS-via-SOCKS enabled. -/
def spec_provision_lines (p : ProxyMap) : List (String × PrefVal) :=
  if p.http.isNone && p.https.isNone && p.socks5.isNone then
    [("network.proxy.type", .n 0), ("network.proxy.no_proxies_on", .s "")]
  else
    [("network.proxy.type", .n 1), ("network.proxy.no_proxies_on", .s "")]
    ++ specHostPort "network.proxy.http" "network.proxy.http_port" p.http
    ++ specHostPort "network.proxy.ssl" "network.proxy.ssl_port" (specSslSource p)
    ++ specHostPort "network.proxy.socks" "network.proxy.socks_port" p.socks5
    ++ (match p.socks5 with
        | some _ =>
            [("network.proxy.socks_version", .n 5),
             ("network.proxy.socks_remote_dns", .b true)]
        | none => [])

/-! ## Bulk autostart (`app.py`, `start_all_autostart`) -/

/-- One `accounts.start_account(acc)` call as the bulk route observes it:
`some (ok, status)` for a normal return, `none` when the launch raises (the
route wraps the call in no try/except). -/
abbrev LaunchResult := Option (Bool × String)

/-- The `start_all_autostart` loop: iterate the accounts in order, skip those
without `autostart`, call `start` on the rest; the first raised launch
exception propagates, aborting the loop. Returns the accounts on which `start`
was actually invoked, and `some (started_ids, already_running_ids)` on normal
completion or `none` when the batch aborted. -/
def start_all_autostart (f : Account → LaunchResult) :
    List Account → List Account × Option (List String × List String)
  | [] => ([], some ([], []))
  | a :: rest =>
      if a.autostart then
        match f a with
        | none => ([a], none)
        | some (_, status) =>
            match start_all_autostart f rest with
            | (inv, none) => (a :: inv, none)
            | (inv, some (st, al)) =>
                (a :: inv,
                  some (if status = "started"
                        then (a.id :: st, al) else (st, a.id :: al)))
      else start_all_autostart f rest

/-- Did this launch result count into the `started` bucket? -/
def startedStatus : LaunchResult → Bool
  | some (_, status) => status = "started"
  | none => false

/-! ## Delete endpoint (`app.py`, `delete_account`) -/

/-- The DELETE route, with its side effects reified: the result string, the
list passed to each `save_accounts` call, and the paths passed to
`delete_profile_dir`. When the id resolves, the filtered list is saved and the
target's `profile_dir` may be removed; when it does not, the *unchanged* list
is still saved, the result is `already_deleted`, and with `delete_profile`
requested the removal targets the path derived as
`os.path.join(PROFILES_DIR, account_id)`. -/
def delete_endpoint (items : List Account) (account_id : String)
    (delete_profile : Bool) :
    String × List (List Account) × List String :=
  match find_account items account_id with
  | some target =>
      let remaining := items.filter (fun a => a.id != account_id)
      ("deleted", [remaining],
        if delete_profile then [target.profile_dir] else [])
  | none =>
      ("already_deleted", [items],
        if delete_profile then [os_path_join PROFILES_DIR account_id] else [])

/-! ## Store load (`load_accounts`) -/

/-- `load_accounts()`: `ensure_data_dirs` initializes a missing store file to
the two-character text `[]`; then the contents are parsed (`json.load`,
abstracted as the `parse` parameter since it is library code) and a parse
failure raises `ValidationError` with code 1006. -/
def load_accounts (parse : String → Option (List Account))
    (file : Option String) : Except Nat (List Account) :=
  let contents := match file with
    | none => "[]"
    | some s => s
  match parse contents with
  | none => .error 1006
  | some data => .ok data

/-- A minimal concrete parser for witnesses: accepts exactly the initial store
text. -/
def parseOnlyEmptyList (s : String) : Option (List Account) :=
  if s = "[]" then some [] else none

/-! ## Concrete sample data used by witnesses and counterexamples -/

/-- A freshly created account at version 1, proxy-less. -/
def sampleAccount : Account :=
  { id := "acc-1-aa"
    name := "alice"
    profile_dir := "/data/profiles/acc-1-aa"
    proxy := ProxyMap.empty
    autostart := false
    default_url := ""
    notes := ""
    version := 1 }

/-- A patch whose only content is a stale version claim. -/
def stalePatch : Patch := { Patch.empty with version := some 5 }

/-- An autostart-enabled account with the given id. -/
def autostartAcc (i : String) : Account :=
  { id := i
    name := i
    profile_dir := "/data/profiles/" ++ i
    proxy := ProxyMap.empty
    autostart := true
    default_url := ""
    notes := ""
    version := 1 }

/-- A launcher oracle whose launch raises for the account `a1` and returns
normally elsewhere. -/
def failingLauncher : Account → LaunchResult :=
  fun a => if a.id = "a1" then none else some (true, "started")

/-- A launcher oracle that always returns `started`. -/
def alwaysStarted : Account → LaunchResult :=
  fun _ => some (true, "started")

/-- The spec's provisioning example: `{http: {host: "10.0.0.1", port: 8080}}`
and no `https`. -/
def exampleHttpOnly : ProxyMap :=
  ⟨some ⟨"10.0.0.1", 8080, "", ""⟩, none, none⟩

/-! ## Helper lemmas -/

/-- Narrowing `update_account_obj` success: the returned record is exactly the
field merge with the version bump. -/
theorem update_account_obj_ok_eq {a : Account} {p : Patch} {c : Bool}
    {a1 : Account} (h : update_account_obj a p c = .ok a1) :
    a1 = mergeFields a p := by
  unfold update_account_obj at h
  split at h
  · split at h
    · exact (Except.ok.inj h).symm
    · simp at h
  · exact (Except.ok.inj h).symm
  · exact (Except.ok.inj h).symm

/-- Each successful sequence of updates adds its length to the version. -/
theorem applyUpdates_ok_version :
    ∀ (ps : List (Patch × Bool)) (a afin : Account),
      applyUpdates a ps = .ok afin → afin.version = a.version + ps.length := by
  intro ps
  induction ps with
  | nil =>
      intro a afin h
      have : a = afin := Except.ok.inj h
      simp [← this]
  | cons pc rest ih =>
      intro a afin h
      obtain ⟨p, c⟩ := pc
      unfold applyUpdates at h
      cases hu : update_account_obj a p c with
      | error e => rw [hu] at h; cases h
      | ok a1 =>
          rw [hu] at h
          have h1 := ih a1 afin h
          have h2 : a1.version = a.version + 1 := by
            rw [update_account_obj_ok_eq hu]; rfl
          rw [h1, h2, List.length_cons]
          omega

/-- A head match of the needle makes it occur. -/
theorem occursIn_of_leadMatch {n h : List Char} (hl : leadMatch n h = true) :
    occursIn n h = true := by
  cases h with
  | nil =>
      cases n with
      | nil => rfl
      | cons a as => simp [leadMatch] at hl
  | cons x xs => simp [occursIn, hl]

/-- The needle matches at the head of itself followed by anything. -/
theorem leadMatch_append_self (n r : List Char) : leadMatch n (n ++ r) = true := by
  induction n with
  | nil => rfl
  | cons a as ih => simp [leadMatch, ih]

/-- A needle occurs in any list that embeds it contiguously. -/
theorem occursIn_append_self (l n r : List Char) :
    occursIn n (l ++ (n ++ r)) = true := by
  induction l with
  | nil =>
      simp only [List.nil_append]
      exact occursIn_of_leadMatch (leadMatch_append_self n r)
  | cons x xs ih => simp [occursIn, ih]

/-- String form of `occursIn_append_self`. -/
theorem occursInStr_mid (x n t : String) : occursInStr n (x ++ n ++ t) = true := by
  show occursIn n.data (x ++ n ++ t).data = true
  have hd : (x ++ n ++ t).data = x.data ++ (n.data ++ t.data) := by
    show (x.data ++ n.data) ++ t.data = x.data ++ (n.data ++ t.data)
    exact List.append_assoc _ _ _
  rw [hd]
  exact occursIn_append_self _ _ _

/-! ## Claims -/

/-- C1: when a version check is requested and the patch carries a version that
differs from the account's current version, `update_account_obj` fails with
the version-conflict code 1007; the error is raised before the merge loop, so
no field of the record is applied (in this pure embedding, no updated record
is produced at all). -/
theorem claim_C1 (a : Account) (p : Patch) (v : Nat)
    (hv : p.version = some v) (hne : v ≠ a.version) :
    update_account_obj a p true = .error 1007 := by
  unfold update_account_obj
  rw [hv]
  simp [Ne.symm hne]

/-- Witness for C1: a version-1 account patched with claimed version 5. -/
theorem claim_C1_witness :
    update_account_obj sampleAccount stalePatch true = .error 1007 :=
  claim_C1 sampleAccount stalePatch 5 rfl (by decide)

/-- C2: every successful `update_account_obj` call increments `version` by
exactly 1, and a sequence of N successful updates starting from a version-1
record ends at version 1 + N. -/
theorem claim_C2 :
    (∀ (a : Account) (p : Patch) (c : Bool) (a1 : Account),
       update_account_obj a p c = .ok a1 → a1.version = a.version + 1) ∧
    (∀ (a : Account) (ps : List (Patch × Bool)) (afin : Account),
       a.version = 1 → applyUpdates a ps = .ok afin →
         afin.version = 1 + ps.length) := by
  constructor
  · intro a p c a1 h
    rw [update_account_obj_ok_eq h]; rfl
  · intro a ps afin h1 h2
    rw [applyUpdates_ok_version ps a afin h2, h1]

/-- Witness for C2: two patch-free updates on a fresh account land at
version 3. -/
theorem claim_C2_witness :
    (mergeFields (mergeFields sampleAccount Patch.empty) Patch.empty).version =
      1 + [(Patch.empty, false), (Patch.empty, true)].length :=
  claim_C2.2 sampleAccount [(Patch.empty, false), (Patch.empty, true)]
    (mergeFields (mergeFields sampleAccount Patch.empty) Patch.empty)
    rfl rfl

/-- C9: a successful update never copies the patch's `version` value: the
result is the input record with only `name`, `proxy`, `autostart`,
`default_url` and `notes` replaced by present patch fields (in particular `id`
and `profile_dir` are untouched) and `version` set to the previous version
plus 1, whatever the patch's `version` field says. -/
theorem claim_C9 (a : Account) (p : Patch) (c : Bool) (a1 : Account)
    (h : update_account_obj a p c = .ok a1) :
    a1 = { a with
      name := p.name.getD a.name
      proxy := p.proxy.getD a.proxy
      autostart := p.autostart.getD a.autostart
      default_url := p.default_url.getD a.default_url
      notes := p.notes.getD a.notes
      version := a.version + 1 } := by
  rw [update_account_obj_ok_eq h]
  unfold mergeFields
  obtain ⟨n, pr, au, du, no, ve⟩ := p
  cases n <;> cases pr <;> cases au <;> cases du <;> cases no <;> rfl

/-- Witness for C9: updating the sample account with a patch that claims
version 5 still yields version 2 and leaves id and profile_dir alone. -/
theorem claim_C9_witness :
    mergeFields sampleAccount stalePatch =
      { sampleAccount with
        name := stalePatch.name.getD sampleAccount.name
        proxy := stalePatch.proxy.getD sampleAccount.proxy
        autostart := stalePatch.autostart.getD sampleAccount.autostart
        default_url := stalePatch.default_url.getD sampleAccount.default_url
        notes := stalePatch.notes.getD sampleAccount.notes
        version := sampleAccount.version + 1 } :=
  claim_C9 sampleAccount stalePatch false (mergeFields sampleAccount stalePatch)
    rfl

/-- C10: a patch with no `version` key skips the conflict check even when the
check is requested and the update succeeds unconditionally; and the PUT route
enables the check exactly when the patch carries a version, so omitting the
field bypasses the optimistic-concurrency guard. -/
theorem claim_C10 (a : Account) (p : Patch) (h : p.version = none) :
    update_account_obj a p true = .ok (mergeFields a p) ∧
    update_endpoint_check_flag p = false ∧
    update_endpoint a p = .ok (mergeFields a p) := by
  refine ⟨?_, ?_, ?_⟩
  · unfold update_account_obj
    rw [h]
  · simp [update_endpoint_check_flag, h]
  · unfold update_endpoint update_endpoint_check_flag update_account_obj
    rw [h]
    rfl

/-- Witness for C10: the empty patch updates a version-1 account with the
check requested, without any conflict. -/
theorem claim_C10_witness :
    update_account_obj sampleAccount Patch.empty true =
      .ok (mergeFields sampleAccount Patch.empty) ∧
    update_endpoint_check_flag Patch.empty = false ∧
    update_endpoint sampleAccount Patch.empty =
      .ok (mergeFields sampleAccount Patch.empty) :=
  claim_C10 sampleAccount Patch.empty rfl

/-- C3: on an account that is not running, `start_account` returns `started`
and spawns; calling it again right away (the spawned process now being in the
process table) returns `already_running` and leaves the table unchanged — no
second process is spawned. -/
theorem claim_C3 (a : Account) (pt : ProcessTable)
    (h : is_running a.profile_dir pt = false) :
    (start_account a pt).1.2 = "started" ∧
    (start_account a (start_account a pt).2).1.2 = "already_running" ∧
    (start_account a (start_account a pt).2).2 = (start_account a pt).2 := by
  have h1 : start_account a pt = ((true, "started"), pt ++ [launch_cmdline a]) := by
    simp [start_account, h]
  have hc : occursInStr a.profile_dir (launch_cmdline a) = true := by
    show occursInStr a.profile_dir
      ("firefox-esr --no-remote --profile " ++ a.profile_dir ++
        (if a.default_url = "" then "" else " " ++ a.default_url)) = true
    exact occursInStr_mid _ _ _
  have hrun2 : is_running a.profile_dir (pt ++ [launch_cmdline a]) = true := by
    simp [is_running, List.any_append, hc]
  rw [h1]
  refine ⟨rfl, ?_, ?_⟩ <;> simp [start_account, hrun2]

/-- Witness for C3: the sample account against an empty process table. -/
theorem claim_C3_witness :
    (start_account sampleAccount []).1.2 = "started" ∧
    (start_account sampleAccount (start_account sampleAccount []).2).1.2 =
      "already_running" ∧
    (start_account sampleAccount (start_account sampleAccount []).2).2 =
      (start_account sampleAccount []).2 :=
  claim_C3 sampleAccount [] rfl

/-- C4: `write_user_js` is the pure translation spec section 4.2 describes —
an empty proxy map yields type 0 with an empty bypass list, a nonempty one
yields type 1, an empty bypass list, host/port per present protocol, the
secure entries falling back from `https` to `http`, and the two extra socks
preferences; in particular the spec's http-only example produces identical
host/port for the plain and the secure entries. -/
theorem claim_C4 :
    (∀ p : ProxyMap, write_user_js_lines p = spec_provision_lines p) ∧
    write_user_js_lines exampleHttpOnly =
      [("network.proxy.type", .n 1), ("network.proxy.no_proxies_on", .s ""),
       ("network.proxy.http", .s "10.0.0.1"), ("network.proxy.http_port", .n 8080),
       ("network.proxy.ssl", .s "10.0.0.1"), ("network.proxy.ssl_port", .n 8080)] := by
  constructor
  · intro p
    obtain ⟨oh, os, ok5⟩ := p
    cases oh <;> cases os <;> cases ok5 <;> rfl
  · rfl

/-- C7: every record built by `build_account` has version 1 and a
`profile_dir` that is the profiles directory joined with its own freshly
generated id — in particular the id occurs in the path. -/
theorem claim_C7 (cleaned : CreateCleaned) (ts : Nat) (suffix : String) :
    (build_account cleaned ts suffix).version = 1 ∧
    (build_account cleaned ts suffix).profile_dir =
      os_path_join PROFILES_DIR (build_account cleaned ts suffix).id ∧
    occursInStr (build_account cleaned ts suffix).id
      (build_account cleaned ts suffix).profile_dir = true := by
  refine ⟨rfl, rfl, ?_⟩
  show occursInStr (generate_account_id ts suffix)
    (PROFILES_DIR ++ "/" ++ generate_account_id ts suffix) = true
  have h := occursInStr_mid (PROFILES_DIR ++ "/") (generate_account_id ts suffix) ""
  have hd : (PROFILES_DIR ++ "/") ++ generate_account_id ts suffix ++ "" =
      PROFILES_DIR ++ "/" ++ generate_account_id ts suffix := by
    simp
  rw [hd] at h
  exact h

/-- C8: a missing store file is auto-initialized (`ensure_data_dirs` writes
the empty list text) so `load_accounts` returns the empty list, and on an
existing file the load fails with the corrupt-store code 1006 exactly when
the contents do not parse as JSON — malformed content is never treated as an
empty store. -/
theorem claim_C8 (parse : String → Option (List Account))
    (hp : parse "[]" = some []) :
    load_accounts parse none = .ok [] ∧
    ∀ s, (load_accounts parse (some s) = .error 1006 ↔ parse s = none) := by
  constructor
  · simp [load_accounts, hp]
  · intro s
    unfold load_accounts
    cases hps : parse s <;> simp [hps]

/-- Witness for C8: with a concrete parser accepting exactly the initial store
text, a missing file loads as the empty list and unparsable contents fail with
1006. -/
theorem claim_C8_witness :
    load_accounts parseOnlyEmptyList none = .ok [] ∧
    (load_accounts parseOnlyEmptyList (some "not json") = .error 1006 ↔
      parseOnlyEmptyList "not json" = none) :=
  ⟨(claim_C8 parseOnlyEmptyList (by decide)).1,
   (claim_C8 parseOnlyEmptyList (by decide)).2 "not json"⟩

/-- C5, counterexample: the bulk autostart loop wraps `accounts.start_account`
in no try/except, so when the launch raises for the first autostart account
the loop aborts: `start` is invoked on that account alone — the second
autostart account is never started — and no outcome lists are returned. -/
theorem claim_C5_counterexample :
    start_all_autostart failingLauncher [autostartAcc "a1", autostartAcc "a2"] =
      ([autostartAcc "a1"], none) ∧
    (start_all_autostart failingLauncher
      [autostartAcc "a1", autostartAcc "a2"]).1 ≠
      [autostartAcc "a1", autostartAcc "a2"] := by
  decide

/-- C5 as amended: the bulk autostart operation invokes `start` on exactly the
accounts with `autostart = true`, in order, and accumulates the `started` /
`already_running` id lists — provided no launch raises; a raised launch
exception aborts the batch (the loop body has no exception handler). -/
theorem claim_C5_amended (f : Account → LaunchResult) (l : List Account)
    (h : ∀ a ∈ l, a.autostart = true → f a ≠ none) :
    (start_all_autostart f l).1 = l.filter (fun a => a.autostart) ∧
    (start_all_autostart f l).2 =
      some ((l.filter (fun a => a.autostart && startedStatus (f a))).map Account.id,
            (l.filter (fun a => a.autostart && !startedStatus (f a))).map Account.id) := by
  induction l with
  | nil => exact ⟨rfl, rfl⟩
  | cons a rest ih =>
      have hrest : ∀ b ∈ rest, b.autostart = true → f b ≠ none :=
        fun b hb => h b (List.mem_cons_of_mem a hb)
      obtain ⟨ih1, ih2⟩ := ih hrest
      rcases hsr : start_all_autostart f rest with ⟨inv, res⟩
      rw [hsr] at ih1 ih2
      replace ih1 : inv = rest.filter (fun b => b.autostart) := ih1
      replace ih2 : res =
          some ((rest.filter (fun b => b.autostart && startedStatus (f b))).map
                  Account.id,
                (rest.filter (fun b => b.autostart && !startedStatus (f b))).map
                  Account.id) := ih2
      subst ih1 ih2
      by_cases ha : a.autostart = true
      · have hfa : f a ≠ none := h a (List.mem_cons_self a rest) ha
        obtain ⟨x, hx⟩ := Option.ne_none_iff_exists'.mp hfa
        obtain ⟨okb, status⟩ := x
        by_cases hst : status = "started"
        · constructor <;>
            simp [start_all_autostart, ha, hx, hsr, List.filter_cons,
              startedStatus, hst]
        · constructor <;>
            simp [start_all_autostart, ha, hx, hsr, List.filter_cons,
              startedStatus, hst]
      · have ha' : a.autostart = false := by
          revert ha; cases a.autostart <;> simp
        constructor <;>
          simp [start_all_autostart, ha', hsr, List.filter_cons]

/-- Witness for the amended C5: one autostart account under a launcher that
never raises. -/
theorem claim_C5_witness :
    (start_all_autostart alwaysStarted [autostartAcc "b1"]).1 =
      [autostartAcc "b1"].filter (fun a => a.autostart) ∧
    (start_all_autostart alwaysStarted [autostartAcc "b1"]).2 =
      some (([autostartAcc "b1"].filter
              (fun a => a.autostart && startedStatus (alwaysStarted a))).map
                Account.id,
            ([autostartAcc "b1"].filter
              (fun a => a.autostart && !startedStatus (alwaysStarted a))).map
                Account.id) :=
  claim_C5_amended alwaysStarted [autostartAcc "b1"]
    (fun a _ _ => by simp [alwaysStarted])

/-- C6, counterexample: deleting an identifier that is not in the store does
not report it as unresolved and is not side-effect free — the route answers
`already_deleted` as a success, still calls `save_accounts` with the unchanged
list (the store file is rewritten), and with `delete_profile=true` requests
removal of the path derived from the unknown id. -/
theorem claim_C6_counterexample :
    delete_endpoint [] "ghost" true =
      ("already_deleted", [[]], [os_path_join PROFILES_DIR "ghost"]) ∧
    ¬ ((delete_endpoint [] "ghost" true).2.1 = [] ∧
       (delete_endpoint [] "ghost" true).2.2 = []) := by
  decide

/-- C6 as amended: for an identifier not present in the store, the delete
route reports `already_deleted` as a success rather than a not-found error,
leaves the account list unchanged but still rewrites the store file with it,
and removes no path unless `delete_profile` is requested, in which case it
targets `os.path.join(PROFILES_DIR, account_id)`. -/
theorem claim_C6_amended (items : List Account) (account_id : String)
    (flag : Bool) (h : find_account items account_id = none) :
    delete_endpoint items account_id flag =
      ("already_deleted", [items],
        if flag then [os_path_join PROFILES_DIR account_id] else []) := by
  unfold delete_endpoint
  rw [h]

/-- Witness for the amended C6: unknown id, default `delete_profile=false`. -/
theorem claim_C6_witness :
    delete_endpoint [] "ghost" false = ("already_deleted", [[]], []) :=
  claim_C6_amended [] "ghost" false rfl

end BrowserVnc
